import Mathlib

set_option maxHeartbeats 1000000

/-!
# Verification of the riju backend session orchestrator (`backend/src/api.ts`)

This file is a shallow embedding of the `Session` class from
`backend/src/api.ts`: the per-connection state machine that leases an OS
user identity, provisions an execution environment, multiplexes a JSON
message protocol over one websocket into terminal / LSP / daemon
subsystems, and tears everything down exactly once.

Modelling conventions:
* Each method of the class becomes a function `Env → SessionState → ... →
  SessionState × List Effect`.  The `Effect` trace records every externally
  visible action (log lines, outbound websocket frames, spawned commands,
  pty writes, the identity release, the transport termination, timer
  sleeps) in program order.
* `Env` is the failure oracle for the external collaborators: each awaited
  external operation gets a boolean saying whether it succeeds; a `false`
  means the corresponding JavaScript `await` rejects, and the embedding
  then follows the source's `catch` path.
* JavaScript truthiness and `typeof` are modelled explicitly
  (`jsTruthy`, `jsTypeof?`, `otruthy`); `null` has `typeof` `"object"`,
  the empty string is falsy, and a missing field is `undefined`.
* Client frames are modelled as `Option JVal`: `none` is a frame that
  fails `JSON.parse`; nested objects and arrays inside the envelope are
  opaque (the handler never inspects them beyond `typeof`).
* The terminal handle's `live` flag lives in a heap `termHeap : List Bool`
  indexed by handle id (which also stands in for the pty pid), because the
  source mutates the flag on a handle object that outlives
  `this.term = null` (the output-forwarding closure captures it).
-/

namespace Riju

/-- A primitive-or-opaque JSON value appearing as a field of the message
envelope.  The handler only ever inspects fields via `typeof` and string
equality, so nested objects and arrays are opaque. -/
inductive JLeaf where
  | jnull
  | jbool (b : Bool)
  | jnum (n : Int)
  | jstr (s : String)
  | jobjOpaque (tag : Nat)
  | jarrOpaque (tag : Nat)
deriving DecidableEq, Repr

/-- A parsed JSON message envelope (result of `JSON.parse` on a frame). -/
inductive JVal where
  | jnull
  | jbool (b : Bool)
  | jnum (n : Int)
  | jstr (s : String)
  | jobj (fields : List (String × JLeaf))
  | jarr (tag : Nat)
deriving DecidableEq, Repr

/-- JavaScript property access `v.k`: defined fields of an object, and
`undefined` (= `none`) otherwise. -/
def getField : JVal → String → Option JLeaf
  | .jobj fields, k => fields.lookup k
  | _, _ => none

/-- JavaScript truthiness of an envelope value. -/
def jsTruthy : JVal → Bool
  | .jnull => false
  | .jbool b => b
  | .jnum n => n != 0
  | .jstr s => !s.isEmpty
  | .jobj _ => true
  | .jarr _ => true

/-- JavaScript `typeof` of a field value; note `typeof null = "object"`. -/
def jsTypeofLeaf : JLeaf → String
  | .jnull => "object"
  | .jbool _ => "boolean"
  | .jnum _ => "number"
  | .jstr _ => "string"
  | .jobjOpaque _ => "object"
  | .jarrOpaque _ => "object"

/-- JavaScript `typeof` of a possibly-undefined field. -/
def jsTypeofOpt : Option JLeaf → String
  | none => "undefined"
  | some l => jsTypeofLeaf l

/-- The string content of a field known to have `typeof` `"string"`. -/
def asStr : Option JLeaf → String
  | some (.jstr s) => s
  | _ => ""

/-- JavaScript truthiness of an optional string field of the language
configuration (`undefined` and `""` are falsy). -/
def otruthy : Option String → Bool
  | none => false
  | some s => !s.isEmpty

/-- The value `switch (msg && msg.event)` branches on, provided it can
match one of the (nonempty) string cases: a falsy `msg` short-circuits to
`msg` itself, which is never a nonempty string. -/
def eventTag (v : JVal) : Option String :=
  if jsTruthy v then
    match getField v "event" with
    | some (.jstr s) => some s
    | _ => none
  else none

/-- Outbound protocol frames (`this.send({event: ...})`). -/
inductive Frame where
  | terminalClear
  | terminalOutput (output : String)
  | lspStarted (root : String)
  | lspOutput (output : JLeaf)
  | serviceLog (service : String) (output : String)
  | serviceFailed (service : String) (error : String)
deriving DecidableEq, Repr

/-- Externally visible actions of the session, in program order. -/
inductive Effect where
  | log (msg : String)
  | logMalformed (raw : Option JVal)
  | wsSend (frame : Frame)
  | runCmd (args : List String) (input : Option String)
  | spawnCmd (args : List String)
  | ptySpawn (args : List String)
  | ptyWrite (input : String)
  | lspWrite (input : JLeaf)
  | sleep (ms : Nat)
  | returnUID
  | wsTerminate
deriving DecidableEq, Repr

/-- Modelled from the spec: the Language Descriptor contract (§6) —
the fields of `LangConfig` that `api.ts` reads (`langs.ts` is external). -/
structure LangConfig where
  name : String
  main : String
  run : String
  template : String
  repl : Option String := none
  compile : Option String := none
  suffix : Option String := none
  createEmpty : Bool := false
  hacks : Option (List String) := none
  daemon : Option String := none
  lsp : Option String := none
  lspSetup : Option String := none
deriving DecidableEq, Repr

/-- Failure oracle for the awaited external operations: a `false` field
means that call rejects and the source's `catch` path runs. -/
structure Env where
  wsSendOk : Bool := true
  leaseOk : Bool := true
  leasedUid : Nat := 0
  privSetupOk : Bool := true
  lspSetupOk : Bool := true
  mkdirOk : Bool := true
  writeOk : Bool := true
  hackOk : Bool := true
  ptySpawnOk : Bool := true
  ptyWriteOk : Bool := true
  lspWriteOk : Bool := true
  teardownRunOk : Bool := true
deriving DecidableEq, Repr

/-- The mutable state of one `Session` object.  `termHeap` holds the
`live` flag of every terminal handle ever created (index = handle id =
modelled pid); `term` is the id of the current handle, if any.
`msgHandlerInstalled` records that `setup` reached its final step of
subscribing `receive` to the websocket — the "Ready" state. -/
structure SessionState where
  uuid : String
  config : LangConfig
  tearingDown : Bool := false
  uidInfo : Option Nat := none
  term : Option Nat := none
  termHeap : List Bool := []
  lspPresent : Bool := false
  daemonPresent : Bool := false
  daemonExitHandlers : Nat := 0
  daemonErrorHandlers : Nat := 0
  registered : Bool := false
  msgHandlerInstalled : Bool := false
deriving DecidableEq, Repr

/-- `new Session(ws, lang)` before `setup()` runs. -/
def newSession (uuid : String) (config : LangConfig) : SessionState :=
  { uuid := uuid, config := config }

/-- `get homedir()`. -/
def homedir (s : SessionState) : String :=
  "/tmp/riju/" ++ s.uuid

/-- Modelled from the spec: the Privilege Boundary command vectors from
`util.ts` (external); opaque tokenised argument vectors. -/
def privilegedSetupArgs (uid : Nat) (uuid : String) : List String :=
  ["riju-privileged-setup", toString uid, uuid]

/-- Modelled from the spec: wrap `args` to run as the leased identity. -/
def privilegedSpawnArgs (uid : Nat) (uuid : String) (args : List String) : List String :=
  ["riju-privileged-spawn", toString uid, uuid] ++ args

/-- Modelled from the spec: the privileged cleanup command vector. -/
def privilegedTeardownArgs (uid : Nat) (uuid : String) : List String :=
  ["riju-privileged-teardown", toString uid, uuid]

/-- Modelled from the spec: `bash(cmd)` from `util.ts` wraps a shell
command line into an argument vector. -/
def bash (cmd : String) : List String :=
  ["bash", "-c", cmd]

/-- `main.includes("/")`: whether the entry point path has a directory
component.  (Structural implementation over the character list so that
concrete runs reduce in the kernel.) -/
def hasSlash (p : String) : Bool :=
  p.data.contains '/'

/-- `path.dirname`: everything before the final slash (only used on paths
that contain one). -/
def dirname (p : String) : String :=
  String.mk (((p.data.reverse.dropWhile (fun c => c ≠ '/')).drop 1).reverse)

/-- `path.resolve(homedir, main)`: `main` if absolute, else joined. -/
def resolvePath (base main : String) : String :=
  if main.data.head? = some '/' then main else base ++ "/" ++ main

/-- `this.teardown()`: flag-guarded.  With no leased identity,
`this.privilegedTeardown()` dereferences the absent `uidInfo` and throws
before the cleanup command runs; the `catch` swallows it.  A failing
cleanup command likewise skips the identity return and the transport
termination. -/
def teardown (env : Env) (s : SessionState) : SessionState × List Effect :=
  if s.tearingDown then (s, [])
  else
    let s1 : SessionState := { s with tearingDown := true, registered := false }
    match s.uidInfo with
    | none =>
      (s1, [.log "Tearing down session", .sleep 5000, .log "Error during teardown"])
    | some uid =>
      if env.teardownRunOk then
        (s1, [.log "Tearing down session", .sleep 5000,
              .runCmd (privilegedTeardownArgs uid s.uuid) none,
              .returnUID, .wsTerminate])
      else
        (s1, [.log "Tearing down session", .sleep 5000,
              .runCmd (privilegedTeardownArgs uid s.uuid) none,
              .log "Error during teardown"])

/-- `this.send(msg)`: suppressed once teardown has begun; a websocket
send failure is caught, logged and triggers teardown. -/
def send (env : Env) (s : SessionState) (f : Frame) : SessionState × List Effect :=
  if s.tearingDown then (s, [])
  else if env.wsSendOk then (s, [.wsSend f])
  else
    let td := teardown env s
    (td.1, .log "Failed to send websocket message" :: td.2)

/-- The fixed text of the diagnostic frame sent by `sendError`
(`Riju encountered an unexpected error: ${err} ... save your code and
refresh the page`). -/
def errText (err : String) : String :=
  "Riju encountered an unexpected error: " ++ err ++
    "\n\r\n\rYou may want to save your code and refresh the page.\n"

/-- `this.sendError(err)`: a `terminalClear` frame followed by a
`terminalOutput` frame carrying the diagnostic text. -/
def sendError (env : Env) (s : SessionState) (err : String) : SessionState × List Effect :=
  let a := send env s .terminalClear
  let b := send env a.1 (.terminalOutput (errText err))
  (b.1, a.2 ++ b.2)

/-- The shell command `runCode` spawns to terminate a live terminal:
SIGTERM, then an escalated SIGKILL after a fixed 3-second delay. -/
def killCmd (pid : Nat) : String :=
  "kill -SIGTERM " ++ toString pid ++ "; sleep 3; kill -SIGKILL " ++
    toString pid

/-- The first step of `runCode`: if a terminal is live, spawn the kill
sequence, mark the handle dead (`this.term.live = false` — mutating the
heap entry the output closure reads) and clear the slot
(`this.term = null`). -/
def killTermIfLive (s : SessionState) : SessionState × List Effect :=
  match s.term with
  | none => (s, [])
  | some h =>
    ({ s with termHeap := s.termHeap.set h false, term := none },
     [.spawnCmd (privilegedSpawnArgs (s.uidInfo.getD 0) s.uuid (bash (killCmd h)))])

/-- The command line `runCode` resolves, from the code argument as
originally supplied (before defaulting): truthy code selects the run
command, wrapped with the compile command when one is configured; absent
or empty code falls back to the REPL, or to a no-op `echo`. -/
def resolveCmdline (c : LangConfig) (code : Option String) : String :=
  if otruthy code then
    if otruthy c.compile then
      "( " ++ c.compile.getD "" ++ " ) && ( " ++ c.run ++ " )"
    else c.run
  else if otruthy c.repl then c.repl.getD ""
  else "echo \x27" ++ c.name ++ " has no REPL, press Run to see it in action\x27"

/-- The code text after defaulting: an `undefined` code argument becomes
`""` when `createEmpty` is set, else the template. -/
def deployedBase (c : LangConfig) (code : Option String) : String :=
  match code with
  | none => if c.createEmpty then "" else c.template
  | some s => s

/-- The code text actually deployed: the configured suffix is appended
only when both the (defaulted) code and the suffix are truthy. -/
def deployedCode (c : LangConfig) (code : Option String) : String :=
  let base := deployedBase c code
  if !base.isEmpty && otruthy c.suffix then base ++ c.suffix.getD ""
  else base

/-- The `catch` block of `runCode`: log and report a diagnostic; the
session is not torn down. -/
def runCodeCatch (env : Env) (s : SessionState) (tr : List Effect) :
    SessionState × List Effect :=
  let se := sendError env s "run error"
  (se.1, tr ++ [.log "Error while running user code"] ++ se.2)

/-- The body of `runCode` after the previous terminal has been killed and
`terminalClear` emitted: resolve the command line and code text,
`mkdir -p` when the entry point has a directory component, write the code
as the leased identity, apply the `ghci-config` hack, then spawn the new
pty and install the new live handle.  Any failing awaited step diverts to
the `catch`; `tr0` is the trace accumulated so far. -/
def runCodeRest (env : Env) (s : SessionState) (tr0 : List Effect)
    (code? : Option String) : SessionState × List Effect :=
  let uid := s.uidInfo.getD 0
  let cmdline := resolveCmdline s.config code?
  let code := deployedCode s.config code?
  let needMkdir := hasSlash s.config.main
  let mkdirTr : List Effect :=
    if needMkdir then
      [.runCmd (privilegedSpawnArgs uid s.uuid
        ["mkdir", "-p", dirname (homedir s ++ "/" ++ s.config.main)]) none]
    else []
  if needMkdir && !env.mkdirOk then
    runCodeCatch env s (tr0 ++ mkdirTr)
  else
    let writeTr : List Effect :=
      [.runCmd (privilegedSpawnArgs uid s.uuid
        ["sh", "-c", "cat > " ++ resolvePath (homedir s) s.config.main])
        (some code)]
    if !env.writeOk then
      runCodeCatch env s (tr0 ++ mkdirTr ++ writeTr)
    else
      let needHack := (s.config.hacks.getD []).contains "ghci-config"
        && !s.config.run.isEmpty
      let hackTr : List Effect :=
        if needHack then
          if !code.isEmpty then
            [.runCmd (privilegedSpawnArgs uid s.uuid
              ["sh", "-c", "cat > " ++ homedir s ++ "/.ghci"])
              (some ":load Main\nmain\n")]
          else
            [.runCmd (privilegedSpawnArgs uid s.uuid
              ["rm", "-f", homedir s ++ "/.ghci"]) none]
        else []
      if needHack && !env.hackOk then
        runCodeCatch env s (tr0 ++ mkdirTr ++ writeTr ++ hackTr)
      else if !env.ptySpawnOk then
        runCodeCatch env s (tr0 ++ mkdirTr ++ writeTr ++ hackTr)
      else
        let h := s.termHeap.length
        ({ s with termHeap := s.termHeap ++ [true], term := some h },
         tr0 ++ mkdirTr ++ writeTr ++ hackTr ++
           [.ptySpawn (privilegedSpawnArgs uid s.uuid (bash cmdline))])

/-- `this.runCode(code?)`.  Sequential embedding of the method body: kill
the previous terminal (marking its handle dead before anything else),
emit `terminalClear`, then deploy and spawn via `runCodeRest`. -/
def runCode (env : Env) (s0 : SessionState) (code? : Option String) :
    SessionState × List Effect :=
  let k := killTermIfLive s0
  let c := send env k.1 .terminalClear
  runCodeRest env c.1 (k.2 ++ c.2) code?

/-- The `catch` block of `receive`: log and report a diagnostic; the
session is not torn down. -/
def receiveCatch (env : Env) (s : SessionState) (tr : List Effect) :
    SessionState × List Effect :=
  let se := sendError env s "message error"
  (se.1, tr ++ [.log "Error while handling message from client"] ++ se.2)

/-- `this.receive(event)`: ignore everything once teardown has begun;
log unparseable frames; dispatch `terminalInput` / `runCode` / `lspInput`
after checking the required field's `typeof`; log any other frame as
malformed. -/
def receive (env : Env) (s : SessionState) (raw : Option JVal) :
    SessionState × List Effect :=
  if s.tearingDown then (s, [])
  else
    match raw with
    | none => (s, [.log "Failed to parse message from client: undefined"])
    | some v =>
      if eventTag v = some "terminalInput" then
        if jsTypeofOpt (getField v "input") ≠ "string" then
          (s, [.logMalformed (some v)])
        else
          match s.term with
          | none => (s, [.log "terminalInput ignored because term is null"])
          | some _ =>
            if env.ptyWriteOk then (s, [.ptyWrite (asStr (getField v "input"))])
            else receiveCatch env s []
      else if eventTag v = some "runCode" then
        if jsTypeofOpt (getField v "code") ≠ "string" then
          (s, [.logMalformed (some v)])
        else runCode env s (some (asStr (getField v "code")))
      else if eventTag v = some "lspInput" then
        if jsTypeofOpt (getField v "input") ≠ "object" || !jsTruthy v then
          (s, [.logMalformed (some v)])
        else if !s.lspPresent then
          (s, [.log "lspInput ignored because lsp is null"])
        else if env.lspWriteOk then
          (s, [.lspWrite ((getField v "input").getD .jnull)])
        else receiveCatch env s []
      else (s, [.logMalformed (some v)])

/-- The `for (const stream of [stdout, stderr])` loop of the daemon block
in `setup`: each iteration registers one `data` handler on the stream and
— because the registrations sit inside the loop — one more `exit` and one
more `error` handler on the daemon process itself. -/
def registerDaemonHandlers (s : SessionState) : SessionState :=
  (["stdout", "stderr"]).foldl
    (fun st _ =>
      { st with daemonExitHandlers := st.daemonExitHandlers + 1,
                daemonErrorHandlers := st.daemonErrorHandlers + 1 })
    s

/-- The `catch` block of `setup`: log, report a diagnostic, tear down. -/
def setupCatch (env : Env) (s : SessionState) (tr : List Effect) :
    SessionState × List Effect :=
  let se := sendError env s "setup error"
  let td := teardown env se.1
  (td.1, tr ++ [.log "Error while setting up environment"] ++ se.2 ++ td.2)

/-- `this.setup()`: register the session, lease an identity, run
privileged setup, deploy the initial code via `runCode` (whose own catch
swallows deploy failures), start the daemon and LSP subsystems when
configured, and finally subscribe `receive` to the websocket ("Ready").
A rejection of any awaited step in this body diverts to the catch. -/
def setup (env : Env) (s0 : SessionState) : SessionState × List Effect :=
  let sA := { s0 with registered := true }
  if !env.leaseOk then
    setupCatch env sA []
  else
    let sB := { sA with uidInfo := some env.leasedUid }
    let trB : List Effect :=
      [.log ("Borrowed uid " ++ toString env.leasedUid),
       .runCmd (privilegedSetupArgs env.leasedUid sB.uuid) none]
    if !env.privSetupOk then
      setupCatch env sB trB
    else
      let rc := runCode env sB none
      let sC := rc.1
      let trC := trB ++ rc.2
      let uid := sC.uidInfo.getD 0
      let dm :=
        if otruthy sC.config.daemon then
          (registerDaemonHandlers { sC with daemonPresent := true },
           [Effect.spawnCmd (privilegedSpawnArgs uid sC.uuid
              (bash (sC.config.daemon.getD "")))])
        else (sC, ([] : List Effect))
      let sD := dm.1
      let trD := trC ++ dm.2
      if otruthy sD.config.lsp then
        let needLspSetup := otruthy sD.config.lspSetup
        let lspSetupTr : List Effect :=
          if needLspSetup then
            [.runCmd (privilegedSpawnArgs uid sD.uuid
               (bash (sD.config.lspSetup.getD ""))) none]
          else []
        if needLspSetup && !env.lspSetupOk then
          setupCatch env sD (trD ++ lspSetupTr)
        else
          let sE := { sD with lspPresent := true }
          let st := send env sE (.lspStarted (homedir sE))
          ({ st.1 with msgHandlerInstalled := true },
           trD ++ lspSetupTr ++
             [.spawnCmd (privilegedSpawnArgs uid sD.uuid
                (bash (sD.config.lsp.getD "")))] ++ st.2)
      else
        ({ sD with msgHandlerInstalled := true }, trD)

/-- `Exited with status ${signal || code}`: the signal name when the
process died from a signal, else the numeric exit code. -/
def exitStatusText (signal : Option String) (code : Int) : String :=
  match signal with
  | some sg => if sg.isEmpty then toString code else sg
  | none => toString code

/-- Fire `n` registered daemon `exit` listeners in order; each sends one
`serviceFailed` frame. -/
def fireDaemonExitHandlers (env : Env) (msg : String) :
    Nat → SessionState → SessionState × List Effect
  | 0, s => (s, [])
  | n + 1, s =>
    let a := send env s (.serviceFailed "daemon" ("Exited with status " ++ msg))
    let b := fireDaemonExitHandlers env msg n a.1
    (b.1, a.2 ++ b.2)

/-- The daemon process exits: every registered `exit` listener fires. -/
def daemonExit (env : Env) (s : SessionState) (signal : Option String)
    (code : Int) : SessionState × List Effect :=
  fireDaemonExitHandlers env (exitStatusText signal code) s.daemonExitHandlers s

/-- The pty `data` callback of terminal handle `h`: forwards the chunk as
`terminalOutput` only while its own handle's `live` flag is still set. -/
def onTermData (env : Env) (s : SessionState) (h : Nat) (d : String) :
    SessionState × List Effect :=
  if s.termHeap.get? h = some true then send env s (.terminalOutput d)
  else (s, [])

/-- The session-level events that can occur after setup, for stating
trace properties over arbitrary continuations. -/
inductive Op where
  | recv (raw : Option JVal)
  | wsClose
  | termData (h : Nat) (d : String)
  | daemonExited (signal : Option String) (code : Int)
deriving DecidableEq, Repr

/-- Dispatch one event to its handler. -/
def applyOp (env : Env) (s : SessionState) : Op → SessionState × List Effect
  | .recv raw => receive env s raw
  | .wsClose => teardown env s
  | .termData h d => onTermData env s h d
  | .daemonExited sg c => daemonExit env s sg c

/-- Run a sequence of events, concatenating the traces. -/
def applyOps (env : Env) (s : SessionState) : List Op → SessionState × List Effect
  | [] => (s, [])
  | op :: ops =>
    let a := applyOp env s op
    let b := applyOps env a.1 ops
    (b.1, a.2 ++ b.2)

/-- `n` sequential invocations of `teardown` on the same session (the
triggers: transport close, transport error, setup failure, repeated
calls — all funnel into the same method, and the guard flag is read and
set without an intervening suspension point). -/
def iterTeardown (env : Env) (s : SessionState) : Nat → SessionState × List Effect
  | 0 => (s, [])
  | n + 1 =>
    let a := teardown env s
    let b := iterTeardown env a.1 n
    (b.1, a.2 ++ b.2)

/-- How many times the leased identity is returned in a trace. -/
def countReturnUID : List Effect → Nat
  | [] => 0
  | .returnUID :: tr => countReturnUID tr + 1
  | _ :: tr => countReturnUID tr

/-- A frame that `receive` treats as malformed: unparseable, or an
unrecognized event tag, or a required field missing / of the wrong
`typeof`.  Mirrors the branch conditions of `receive`. -/
def malformed : Option JVal → Bool
  | none => true
  | some v =>
    if eventTag v = some "terminalInput" then
      decide (jsTypeofOpt (getField v "input") ≠ "string")
    else if eventTag v = some "runCode" then
      decide (jsTypeofOpt (getField v "code") ≠ "string")
    else if eventTag v = some "lspInput" then
      decide (jsTypeofOpt (getField v "input") ≠ "object") || !jsTruthy v
    else true

/-- An effect that is only a log line (no outbound frame, no process or
transport action). -/
def isLogEffect : Effect → Bool
  | .log _ => true
  | .logMalformed _ => true
  | _ => false

/-- A well-formed Run-Code request frame. -/
def isRunCodeFrame : Option JVal → Bool
  | none => false
  | some v =>
    eventTag v == some "runCode" &&
      jsTypeofOpt (getField v "code") == "string"

/-! ## List helper lemmas -/

theorem get?_set_false_of_false {l : List Bool} {h : Nat} (k : Nat)
    (hd : l.get? h = some false) : (l.set k false).get? h = some false := by
  induction l generalizing h k with
  | nil => simp at hd
  | cons a t ih =>
    cases k with
    | zero =>
      cases h with
      | zero => simp
      | succ h => simpa using hd
    | succ k =>
      cases h with
      | zero => simpa using hd
      | succ h =>
        simp only [List.set, List.get?] at hd ⊢
        exact ih k hd

theorem get?_set_self_false {l : List Bool} {h : Nat} {b : Bool}
    (hd : l.get? h = some b) : (l.set h false).get? h = some false := by
  induction l generalizing h with
  | nil => simp at hd
  | cons a t ih =>
    cases h with
    | zero => simp
    | succ h =>
      simp only [List.set, List.get?] at hd ⊢
      exact ih hd

theorem get?_append_false {l l' : List Bool} {h : Nat}
    (hd : l.get? h = some false) : (l ++ l').get? h = some false := by
  induction l generalizing h with
  | nil => simp at hd
  | cons a t ih =>
    cases h with
    | zero => simpa using hd
    | succ h =>
      simp only [List.cons_append, List.get?] at hd ⊢
      exact ih hd

/-! ## State-preservation lemmas -/

theorem teardown_termHeap (env : Env) (s : SessionState) :
    (teardown env s).1.termHeap = s.termHeap := by
  unfold teardown
  split
  · rfl
  · split
    · rfl
    · split <;> rfl

theorem teardown_term (env : Env) (s : SessionState) :
    (teardown env s).1.term = s.term := by
  unfold teardown
  split
  · rfl
  · split
    · rfl
    · split <;> rfl

theorem teardown_uidInfo (env : Env) (s : SessionState) :
    (teardown env s).1.uidInfo = s.uidInfo := by
  unfold teardown
  split
  · rfl
  · split
    · rfl
    · split <;> rfl

theorem send_termHeap (env : Env) (s : SessionState) (f : Frame) :
    (send env s f).1.termHeap = s.termHeap := by
  unfold send
  split
  · rfl
  · split
    · rfl
    · exact teardown_termHeap env s

theorem send_fst_ok (env : Env) (s : SessionState) (f : Frame)
    (hws : env.wsSendOk = true) : (send env s f).1 = s := by
  unfold send
  split
  · rfl
  · simp [hws]

theorem sendError_fst_ok (env : Env) (s : SessionState) (err : String)
    (hws : env.wsSendOk = true) : (sendError env s err).1 = s := by
  unfold sendError
  simp [send_fst_ok, hws]

theorem sendError_termHeap (env : Env) (s : SessionState) (err : String) :
    (sendError env s err).1.termHeap = s.termHeap := by
  unfold sendError
  simp [send_termHeap]

theorem sendError_trace_ok (env : Env) (s : SessionState) (err : String)
    (hws : env.wsSendOk = true) (htd : s.tearingDown = false) :
    (sendError env s err).2 =
      [.wsSend .terminalClear, .wsSend (.terminalOutput (errText err))] := by
  unfold sendError send
  simp [hws, htd]

theorem killTermIfLive_tearingDown (s : SessionState) :
    (killTermIfLive s).1.tearingDown = s.tearingDown := by
  unfold killTermIfLive
  split <;> rfl

theorem killTermIfLive_msgH (s : SessionState) :
    (killTermIfLive s).1.msgHandlerInstalled = s.msgHandlerInstalled := by
  unfold killTermIfLive
  split <;> rfl

theorem killTermIfLive_term_none {s : SessionState} {h : Nat}
    (hterm : s.term = some h) : (killTermIfLive s).1.term = none := by
  unfold killTermIfLive
  rw [hterm]

theorem killTermIfLive_dead_self {s : SessionState} {h : Nat} {b : Bool}
    (hterm : s.term = some h) (hb : s.termHeap.get? h = some b) :
    (killTermIfLive s).1.termHeap.get? h = some false := by
  unfold killTermIfLive
  rw [hterm]
  exact get?_set_self_false hb

theorem killTermIfLive_dead {s : SessionState} {h : Nat}
    (hd : s.termHeap.get? h = some false) :
    (killTermIfLive s).1.termHeap.get? h = some false := by
  unfold killTermIfLive
  split
  · exact hd
  · exact get?_set_false_of_false _ hd

theorem runCodeCatch_fst (env : Env) (s : SessionState) (tr : List Effect) :
    (runCodeCatch env s tr).1 = (sendError env s "run error").1 := rfl

theorem runCodeRest_dead (env : Env) (s : SessionState) (tr0 : List Effect)
    (code? : Option String) {h : Nat} (hd : s.termHeap.get? h = some false) :
    (runCodeRest env s tr0 code?).1.termHeap.get? h = some false := by
  simp only [runCodeRest]
  repeat' split
  all_goals first
    | (rw [runCodeCatch_fst, sendError_termHeap]; exact hd)
    | exact get?_append_false hd

theorem runCodeRest_tearingDown (env : Env) (s : SessionState)
    (tr0 : List Effect) (code? : Option String) (hws : env.wsSendOk = true) :
    (runCodeRest env s tr0 code?).1.tearingDown = s.tearingDown := by
  simp only [runCodeRest]
  repeat' split
  all_goals first
    | rw [runCodeCatch_fst, sendError_fst_ok env s _ hws]
    | rfl

theorem runCodeRest_msgH (env : Env) (s : SessionState)
    (tr0 : List Effect) (code? : Option String) (hws : env.wsSendOk = true) :
    (runCodeRest env s tr0 code?).1.msgHandlerInstalled =
      s.msgHandlerInstalled := by
  simp only [runCodeRest]
  repeat' split
  all_goals first
    | rw [runCodeCatch_fst, sendError_fst_ok env s _ hws]
    | rfl

theorem runCodeRest_fst_of_writeFail (env : Env) (s : SessionState)
    (tr0 : List Effect) (code? : Option String) (hws : env.wsSendOk = true)
    (hw : env.writeOk = false) : (runCodeRest env s tr0 code?).1 = s := by
  simp only [runCodeRest]
  repeat' split
  all_goals first
    | rw [runCodeCatch_fst, sendError_fst_ok env s _ hws]
    | simp_all

theorem runCode_dead (env : Env) (s0 : SessionState) (code? : Option String)
    {h : Nat} (hd : s0.termHeap.get? h = some false) :
    (runCode env s0 code?).1.termHeap.get? h = some false := by
  unfold runCode
  apply runCodeRest_dead
  rw [send_termHeap]
  exact killTermIfLive_dead hd

theorem runCode_kills (env : Env) (s0 : SessionState) (code? : Option String)
    {h : Nat} {b : Bool} (hterm : s0.term = some h)
    (hb : s0.termHeap.get? h = some b) :
    (runCode env s0 code?).1.termHeap.get? h = some false := by
  unfold runCode
  apply runCodeRest_dead
  rw [send_termHeap]
  exact killTermIfLive_dead_self hterm hb

theorem runCode_tearingDown (env : Env) (s0 : SessionState)
    (code? : Option String) (hws : env.wsSendOk = true) :
    (runCode env s0 code?).1.tearingDown = s0.tearingDown := by
  unfold runCode
  rw [runCodeRest_tearingDown _ _ _ _ hws, send_fst_ok _ _ _ hws,
    killTermIfLive_tearingDown]

theorem runCode_msgH (env : Env) (s0 : SessionState)
    (code? : Option String) (hws : env.wsSendOk = true) :
    (runCode env s0 code?).1.msgHandlerInstalled = s0.msgHandlerInstalled := by
  unfold runCode
  rw [runCodeRest_msgH _ _ _ _ hws, send_fst_ok _ _ _ hws,
    killTermIfLive_msgH]

theorem runCode_term_none_of_writeFail (env : Env) (s0 : SessionState)
    (code? : Option String) {h : Nat} (hterm : s0.term = some h)
    (hws : env.wsSendOk = true) (hw : env.writeOk = false) :
    (runCode env s0 code?).1.term = none := by
  unfold runCode
  rw [runCodeRest_fst_of_writeFail _ _ _ _ hws hw, send_fst_ok _ _ _ hws]
  exact killTermIfLive_term_none hterm

theorem fireDaemonExitHandlers_termHeap (env : Env) (msg : String) :
    ∀ (n : Nat) (s : SessionState),
      (fireDaemonExitHandlers env msg n s).1.termHeap = s.termHeap := by
  intro n
  induction n with
  | zero => intro s; rfl
  | succ n ih =>
    intro s
    simp only [fireDaemonExitHandlers]
    rw [ih, send_termHeap]

theorem daemonExit_termHeap (env : Env) (s : SessionState)
    (signal : Option String) (code : Int) :
    (daemonExit env s signal code).1.termHeap = s.termHeap := by
  unfold daemonExit
  exact fireDaemonExitHandlers_termHeap env _ _ s

theorem onTermData_dead (env : Env) (s : SessionState) {h : Nat} (d : String)
    (hd : s.termHeap.get? h = some false) :
    onTermData env s h d = (s, []) := by
  have hc : ¬ (s.termHeap.get? h = some true) := by rw [hd]; simp
  unfold onTermData
  rw [if_neg hc]

theorem onTermData_termHeap (env : Env) (s : SessionState) (h : Nat)
    (d : String) : (onTermData env s h d).1.termHeap = s.termHeap := by
  unfold onTermData
  split
  · exact send_termHeap env s _
  · rfl

theorem receiveCatch_fst (env : Env) (s : SessionState) (tr : List Effect) :
    (receiveCatch env s tr).1 = (sendError env s "message error").1 := rfl

theorem receive_dead (env : Env) (s : SessionState) (raw : Option JVal)
    {h : Nat} (hd : s.termHeap.get? h = some false) :
    (receive env s raw).1.termHeap.get? h = some false := by
  unfold receive
  repeat' split
  all_goals first
    | exact hd
    | (rw [receiveCatch_fst, sendError_termHeap]; exact hd)
    | exact runCode_dead env s _ hd

theorem applyOp_dead (env : Env) (s : SessionState) (op : Op) {h : Nat}
    (hd : s.termHeap.get? h = some false) :
    (applyOp env s op).1.termHeap.get? h = some false := by
  cases op with
  | recv raw => exact receive_dead env s raw hd
  | wsClose => rw [applyOp, teardown_termHeap]; exact hd
  | termData k d => rw [applyOp, onTermData_termHeap]; exact hd
  | daemonExited sg c => rw [applyOp, daemonExit_termHeap]; exact hd

theorem applyOps_dead (env : Env) (s : SessionState) (ops : List Op) {h : Nat}
    (hd : s.termHeap.get? h = some false) :
    (applyOps env s ops).1.termHeap.get? h = some false := by
  induction ops generalizing s with
  | nil => exact hd
  | cons op rest ih =>
    simp only [applyOps]
    exact ih _ (applyOp_dead env s op hd)

theorem applyOps_append (env : Env) (s : SessionState) (l1 l2 : List Op) :
    applyOps env s (l1 ++ l2) =
      ((applyOps env (applyOps env s l1).1 l2).1,
       (applyOps env s l1).2 ++ (applyOps env (applyOps env s l1).1 l2).2) := by
  induction l1 generalizing s with
  | nil => simp [applyOps]
  | cons op rest ih =>
    simp only [List.cons_append, applyOps, List.append_eq]
    rw [ih]
    simp [List.append_assoc]

theorem teardown_flagged (env : Env) (s : SessionState)
    (htd : s.tearingDown = true) : teardown env s = (s, []) := by
  unfold teardown
  simp [htd]

theorem iterTeardown_flagged (env : Env) (s : SessionState)
    (htd : s.tearingDown = true) :
    ∀ n : Nat, iterTeardown env s n = (s, []) := by
  intro n
  induction n with
  | zero => rfl
  | succ n ih =>
    simp only [iterTeardown]
    rw [teardown_flagged env s htd]
    simp [ih]

theorem teardown_trace_ok (env : Env) (s : SessionState) {u : Nat}
    (htd : s.tearingDown = false) (hu : s.uidInfo = some u)
    (hok : env.teardownRunOk = true) :
    teardown env s =
      ({ s with tearingDown := true, registered := false },
       [.log "Tearing down session", .sleep 5000,
        .runCmd (privilegedTeardownArgs u s.uuid) none,
        .returnUID, .wsTerminate]) := by
  unfold teardown
  rw [hu]
  simp [htd, hok]

/-- The two effects only teardown produces: returning the leased identity
and terminating the transport. -/
def isReleaseEff : Effect → Bool
  | .returnUID => true
  | .wsTerminate => true
  | _ => false

/-- A trace containing no teardown-only effects. -/
def allBenign (tr : List Effect) : Prop :=
  ∀ e ∈ tr, isReleaseEff e = false

theorem allBenign_nil : allBenign [] := by
  intro e he
  simp at he

theorem allBenign_append {a b : List Effect} (ha : allBenign a)
    (hb : allBenign b) : allBenign (a ++ b) := by
  intro e he
  rcases List.mem_append.1 he with h | h
  · exact ha e h
  · exact hb e h

theorem allBenign_singleton {e : Effect} (he : isReleaseEff e = false) :
    allBenign [e] := by
  intro x hx
  rcases List.mem_singleton.1 hx with rfl
  exact he

theorem allBenign_cons {e : Effect} {tr : List Effect}
    (he : isReleaseEff e = false) (htr : allBenign tr) :
    allBenign (e :: tr) := by
  intro x hx
  rcases List.mem_cons.1 hx with rfl | hx
  · exact he
  · exact htr x hx

theorem send_benign (env : Env) (s : SessionState) (f : Frame)
    (hws : env.wsSendOk = true) : allBenign (send env s f).2 := by
  unfold send
  repeat' split
  all_goals first
    | exact allBenign_nil
    | exact allBenign_singleton rfl

theorem sendError_benign (env : Env) (s : SessionState) (err : String)
    (hws : env.wsSendOk = true) : allBenign (sendError env s err).2 :=
  allBenign_append (send_benign env s _ hws) (send_benign env _ _ hws)

theorem runCodeCatch_benign (env : Env) (s : SessionState)
    (tr : List Effect) (hws : env.wsSendOk = true) (htr : allBenign tr) :
    allBenign (runCodeCatch env s tr).2 :=
  allBenign_append (allBenign_append htr (allBenign_singleton rfl))
    (sendError_benign env s _ hws)

theorem runCodeRest_benign (env : Env) (s : SessionState)
    (tr0 : List Effect) (code? : Option String) (hws : env.wsSendOk = true)
    (htr : allBenign tr0) : allBenign (runCodeRest env s tr0 code?).2 := by
  simp only [runCodeRest]
  repeat' split
  all_goals first
    | (apply runCodeCatch_benign env _ _ hws
       repeat' first
         | apply allBenign_append
         | exact htr
         | exact allBenign_singleton rfl
         | exact allBenign_nil)
    | (repeat' first
         | apply allBenign_append
         | exact htr
         | exact allBenign_singleton rfl
         | exact allBenign_nil)

theorem killTermIfLive_benign (s : SessionState) :
    allBenign (killTermIfLive s).2 := by
  unfold killTermIfLive
  split
  · exact allBenign_nil
  · exact allBenign_singleton rfl

theorem runCode_benign (env : Env) (s0 : SessionState)
    (code? : Option String) (hws : env.wsSendOk = true) :
    allBenign (runCode env s0 code?).2 := by
  unfold runCode
  exact runCodeRest_benign env _ _ _ hws
    (allBenign_append (killTermIfLive_benign s0) (send_benign env _ _ hws))

theorem receiveCatch_benign (env : Env) (s : SessionState)
    (tr : List Effect) (hws : env.wsSendOk = true) (htr : allBenign tr) :
    allBenign (receiveCatch env s tr).2 :=
  allBenign_append (allBenign_append htr (allBenign_singleton rfl))
    (sendError_benign env s _ hws)

theorem receive_benign (env : Env) (s : SessionState) (raw : Option JVal)
    (hws : env.wsSendOk = true) : allBenign (receive env s raw).2 := by
  unfold receive
  repeat' split
  all_goals first
    | exact allBenign_nil
    | exact allBenign_singleton rfl
    | exact runCode_benign env s _ hws
    | exact receiveCatch_benign env s [] hws allBenign_nil

theorem receive_tearingDown (env : Env) (s : SessionState) (raw : Option JVal)
    (hws : env.wsSendOk = true) :
    (receive env s raw).1.tearingDown = s.tearingDown := by
  unfold receive
  repeat' split
  all_goals first
    | rfl
    | exact runCode_tearingDown env s _ hws
    | rw [receiveCatch_fst, sendError_fst_ok env s _ hws]

theorem receive_msgH (env : Env) (s : SessionState) (raw : Option JVal)
    (hws : env.wsSendOk = true) :
    (receive env s raw).1.msgHandlerInstalled = s.msgHandlerInstalled := by
  unfold receive
  repeat' split
  all_goals first
    | rfl
    | exact runCode_msgH env s _ hws
    | rw [receiveCatch_fst, sendError_fst_ok env s _ hws]

theorem runCodeCatch_diag (env : Env) (s : SessionState) (tr : List Effect)
    (hws : env.wsSendOk = true) (htd : s.tearingDown = false) :
    Effect.log "Error while running user code" ∈ (runCodeCatch env s tr).2 ∧
    Effect.wsSend (.terminalOutput (errText "run error")) ∈
      (runCodeCatch env s tr).2 := by
  have hse := sendError_trace_ok env s "run error" hws htd
  simp only [runCodeCatch, hse]
  constructor <;> simp

theorem runCodeRest_diag (env : Env) (s : SessionState) (tr0 : List Effect)
    (code? : Option String) (hws : env.wsSendOk = true)
    (htd : s.tearingDown = false) (hw : env.writeOk = false) :
    Effect.log "Error while running user code" ∈
      (runCodeRest env s tr0 code?).2 ∧
    Effect.wsSend (.terminalOutput (errText "run error")) ∈
      (runCodeRest env s tr0 code?).2 := by
  simp only [runCodeRest]
  repeat' split
  all_goals first
    | exact runCodeCatch_diag env s _ hws htd
    | simp_all

theorem runCode_diag (env : Env) (s0 : SessionState) (code? : Option String)
    (hws : env.wsSendOk = true) (htd : s0.tearingDown = false)
    (hw : env.writeOk = false) :
    Effect.log "Error while running user code" ∈ (runCode env s0 code?).2 ∧
    Effect.wsSend (.terminalOutput (errText "run error")) ∈
      (runCode env s0 code?).2 := by
  unfold runCode
  refine runCodeRest_diag env _ _ code? hws ?_ hw
  rw [send_fst_ok _ _ _ hws, killTermIfLive_tearingDown]
  exact htd

theorem receive_diag (env : Env) (s : SessionState) (raw : Option JVal)
    (hws : env.wsSendOk = true) (htd : s.tearingDown = false)
    (hw : env.writeOk = false) (hrc : isRunCodeFrame raw = true) :
    Effect.log "Error while running user code" ∈ (receive env s raw).2 ∧
    Effect.wsSend (.terminalOutput (errText "run error")) ∈
      (receive env s raw).2 := by
  rcases raw with _ | v
  · simp [isRunCodeFrame] at hrc
  · simp only [isRunCodeFrame, Bool.and_eq_true, beq_iff_eq] at hrc
    obtain ⟨h1, h2⟩ := hrc
    unfold receive
    simp only [htd, h1, h2, Bool.false_eq_true, if_false, Option.some.injEq,
      String.reduceEq, ite_false, ite_true, ne_eq, not_true_eq_false,
      not_false_eq_true, reduceCtorEq]
    exact runCode_diag env s _ hws htd hw

/-! ## Concrete fixtures for witnesses and counterexamples -/

/-- A plain interpreted-language descriptor (run command, REPL, no
compile step, no daemon, no LSP). -/
def cfgPlain : LangConfig :=
  { name := "python", main := "main.py", run := "python main.py",
    template := "tmpl", repl := some "python" }

/-- A descriptor with a configured daemon. -/
def cfgDaemon : LangConfig :=
  { name := "dlang", main := "main.d", run := "run-main",
    template := "tm", daemon := some "daemon-cmd" }

/-- A descriptor with a configured trailing suffix. -/
def cfgSuffix : LangConfig :=
  { name := "hs", main := "Main.hs", run := "run-hs",
    template := "t", suffix := some ";;" }

/-- The all-succeeding environment. -/
def envOK : Env := {}

/-- An environment in which only the code-deploy write fails. -/
def envDeployFail : Env := { writeOk := false }

/-- An environment in which only the privileged setup command fails. -/
def envPrivFail : Env := { privSetupOk := false }

/-- A ready session with a live terminal handle `0` and a leased uid. -/
def sessReady : SessionState :=
  { uuid := "sess", config := cfgPlain, uidInfo := some 3, term := some 0,
    termHeap := [true], registered := true, msgHandlerInstalled := true }

/-- A session on which teardown has begun. -/
def sessTD : SessionState :=
  { uuid := "sess", config := cfgPlain, uidInfo := some 3,
    tearingDown := true, msgHandlerInstalled := true }

/-! ## Claims -/

/-- C1: teardown is idempotent: however many triggers invoke it on a
session whose teardown has not yet begun, the release sequence — the
fixed 5-second grace wait, the privileged cleanup command, the identity
return, the transport termination — appears in the combined trace exactly
once, in order, and the teardown-in-progress flag is set. -/
theorem claim1_teardown_release_once (env : Env) (s : SessionState)
    (u n : Nat) (htd : s.tearingDown = false) (hu : s.uidInfo = some u)
    (hok : env.teardownRunOk = true) (hn : 1 ≤ n) :
    iterTeardown env s n =
      ({ s with tearingDown := true, registered := false },
       [.log "Tearing down session", .sleep 5000,
        .runCmd (privilegedTeardownArgs u s.uuid) none,
        .returnUID, .wsTerminate]) := by
  obtain ⟨m, rfl⟩ : ∃ m, n = m + 1 := ⟨n - 1, by omega⟩
  simp only [iterTeardown]
  rw [teardown_trace_ok env s htd hu hok,
    iterTeardown_flagged env _ rfl m]
  simp

/-- Witness for C1 at a concrete session and three teardown triggers. -/
theorem claim1_witness :
    iterTeardown envOK sessReady 3 =
      ({ sessReady with tearingDown := true, registered := false },
       [.log "Tearing down session", .sleep 5000,
        .runCmd (privilegedTeardownArgs 3 sessReady.uuid) none,
        .returnUID, .wsTerminate]) :=
  claim1_teardown_release_once envOK sessReady 3 3 rfl rfl rfl (by decide)

/-- C7: once teardown has begun, every outbound send is suppressed before
reaching the transport, and every received transport message has no side
effects and produces no outbound frames. -/
theorem claim7_quiescent_after_teardown (env : Env) (s : SessionState)
    (htd : s.tearingDown = true) :
    (∀ f, send env s f = (s, [])) ∧
    (∀ raw, receive env s raw = (s, [])) := by
  constructor
  · intro f
    unfold send
    rw [if_pos htd]
  · intro raw
    unfold receive
    rw [if_pos htd]

/-- Witness for C7: a concrete frame and a concrete message on a
tearing-down session. -/
theorem claim7_witness :
    send envOK sessTD .terminalClear = (sessTD, []) ∧
    receive envOK sessTD
        (some (.jobj [("event", .jstr "runCode"), ("code", .jstr "1")])) =
      (sessTD, []) :=
  ⟨(claim7_quiescent_after_teardown envOK sessTD rfl).1 _,
   (claim7_quiescent_after_teardown envOK sessTD rfl).2 _⟩

/-- C10: every diagnostic reported via `sendError` (while the session is
not tearing down and the transport accepts the send) is exactly two
frames in order — `terminalClear`, then a `terminalOutput` whose payload
contains the error text and the save-and-reload advice. -/
theorem claim10_diagnostic_shape (env : Env) (s : SessionState)
    (err : String) (htd : s.tearingDown = false)
    (hws : env.wsSendOk = true) :
    sendError env s err =
      (s, [.wsSend .terminalClear,
           .wsSend (.terminalOutput (errText err))]) ∧
    errText err = "Riju encountered an unexpected error: " ++ err ++
      "\n\r\n\rYou may want to save your code and refresh the page.\n" := by
  refine ⟨?_, rfl⟩
  unfold sendError send
  simp [htd, hws]

/-- Witness for C10 at a concrete session and error. -/
theorem claim10_witness :
    sendError envOK sessReady "boom" =
      (sessReady, [.wsSend .terminalClear,
                   .wsSend (.terminalOutput (errText "boom"))]) ∧
    errText "boom" = "Riju encountered an unexpected error: " ++ "boom" ++
      "\n\r\n\rYou may want to save your code and refresh the page.\n" :=
  claim10_diagnostic_shape envOK sessReady "boom" rfl rfl

/-- C2: after a Run-Code request replaces a live terminal handle `h`, the
handle is marked dead immediately, it stays dead across every possible
continuation of the session, and a late output chunk from the superseded
process (`Op.termData h d`) contributes no effect at all — in particular
no `terminalOutput` frame — no matter when it arrives. -/
theorem claim2_superseded_terminal_silent (env : Env) (s : SessionState)
    (h : Nat) (code? : Option String) (hterm : s.term = some h)
    (hlive : s.termHeap.get? h = some true) :
    (runCode env s code?).1.termHeap.get? h = some false ∧
    (∀ ops : List Op,
      (applyOps env (runCode env s code?).1 ops).1.termHeap.get? h =
        some false) ∧
    (∀ (ops : List Op) (d : String),
      applyOps env (runCode env s code?).1 (ops ++ [Op.termData h d]) =
        applyOps env (runCode env s code?).1 ops) := by
  have hdead := runCode_kills env s code? hterm hlive
  refine ⟨hdead, fun ops => applyOps_dead env _ ops hdead, fun ops d => ?_⟩
  rw [applyOps_append]
  have hd2 := applyOps_dead env (runCode env s code?).1 ops hdead
  have hlast :
      applyOps env (applyOps env (runCode env s code?).1 ops).1
          [Op.termData h d] =
        ((applyOps env (runCode env s code?).1 ops).1, []) := by
    simp only [applyOps, applyOp]
    rw [onTermData_dead env _ d hd2]
    simp
  rw [hlast]
  simp

/-- Witness for C2: a concrete replacement plus one late output chunk. -/
theorem claim2_witness :
    (runCode envOK sessReady none).1.termHeap.get? 0 = some false ∧
    (applyOps envOK (runCode envOK sessReady none).1
        [Op.termData 0 "late"]).1.termHeap.get? 0 = some false ∧
    applyOps envOK (runCode envOK sessReady none).1
        ([] ++ [Op.termData 0 "late"]) =
      applyOps envOK (runCode envOK sessReady none).1 [] :=
  ⟨(claim2_superseded_terminal_silent envOK sessReady 0 none rfl rfl).1,
   (claim2_superseded_terminal_silent envOK sessReady 0 none rfl rfl).2.1
     [Op.termData 0 "late"],
   (claim2_superseded_terminal_silent envOK sessReady 0 none rfl rfl).2.2
     [] "late"⟩

/-- C9: Run-Code is not atomic on failure: with a live terminal, the
handle is marked dead and the slot cleared before the deploy step, so
when the deploy write fails the session is left with no terminal handle,
and a subsequent `terminalInput` message is a logged no-op that changes
nothing. -/
theorem claim9_failed_runcode_leaves_no_terminal (env : Env)
    (s : SessionState) (h : Nat) (code? : Option String) (d : String)
    (hterm : s.term = some h) (hlive : s.termHeap.get? h = some true)
    (htd : s.tearingDown = false) (hws : env.wsSendOk = true)
    (hw : env.writeOk = false) :
    (runCode env s code?).1.term = none ∧
    (runCode env s code?).1.termHeap.get? h = some false ∧
    receive env (runCode env s code?).1
        (some (.jobj [("event", .jstr "terminalInput"),
                      ("input", .jstr d)])) =
      ((runCode env s code?).1,
       [.log "terminalInput ignored because term is null"]) := by
  have hterm' := runCode_term_none_of_writeFail env s code? hterm hws hw
  have hdead := runCode_kills env s code? hterm hlive
  have htd' : (runCode env s code?).1.tearingDown = false := by
    rw [runCode_tearingDown env s code? hws]
    exact htd
  refine ⟨hterm', hdead, ?_⟩
  have he : eventTag (JVal.jobj [("event", .jstr "terminalInput"),
      ("input", .jstr d)]) = some "terminalInput" := rfl
  have ht : jsTypeofOpt (getField (JVal.jobj [("event", .jstr "terminalInput"),
      ("input", .jstr d)]) "input") = "string" := rfl
  unfold receive
  simp only [htd', he, ht, hterm', Bool.false_eq_true, if_false,
    Option.some.injEq, String.reduceEq, ite_false, ite_true, ne_eq,
    not_true_eq_false, not_false_eq_true, reduceCtorEq]

/-- Witness for C9: concrete failing deploy then a terminal input. -/
theorem claim9_witness :
    (runCode envDeployFail sessReady none).1.term = none ∧
    (runCode envDeployFail sessReady none).1.termHeap.get? 0 = some false ∧
    receive envDeployFail (runCode envDeployFail sessReady none).1
        (some (.jobj [("event", .jstr "terminalInput"),
                      ("input", .jstr "ls")])) =
      ((runCode envDeployFail sessReady none).1,
       [.log "terminalInput ignored because term is null"]) :=
  claim9_failed_runcode_leaves_no_terminal envDeployFail sessReady 0 none
    "ls" rfl rfl rfl rfl rfl

/-- C8: any error raised while handling a client message — including a
failure at any step of Run-Code — is caught at the handler boundary, and
the session is not torn down: the teardown flag is unchanged (false), the
Ready subscription is unchanged, no identity-release or transport-close
effect appears in the trace, and (shown for the deploy-write failure) the
error is logged and reported to the client as a diagnostic frame. -/
theorem claim8_handler_errors_not_fatal (env : Env) (s : SessionState)
    (raw : Option JVal) (hws : env.wsSendOk = true)
    (htd : s.tearingDown = false) :
    (receive env s raw).1.tearingDown = false ∧
    (receive env s raw).1.msgHandlerInstalled = s.msgHandlerInstalled ∧
    allBenign (receive env s raw).2 ∧
    (env.writeOk = false → isRunCodeFrame raw = true →
      Effect.log "Error while running user code" ∈ (receive env s raw).2 ∧
      Effect.wsSend (.terminalOutput (errText "run error")) ∈
        (receive env s raw).2) := by
  refine ⟨?_, receive_msgH env s raw hws, receive_benign env s raw hws,
    fun hw hrc => receive_diag env s raw hws htd hw hrc⟩
  rw [receive_tearingDown env s raw hws]
  exact htd

/-- Witness for C8: a Run-Code request whose deploy write fails. -/
theorem claim8_witness :
    (receive envDeployFail sessReady
        (some (.jobj [("event", .jstr "runCode"),
                      ("code", .jstr "print(1)")]))).1.tearingDown = false ∧
    Effect.log "Error while running user code" ∈
      (receive envDeployFail sessReady
        (some (.jobj [("event", .jstr "runCode"),
                      ("code", .jstr "print(1)")]))).2 ∧
    Effect.wsSend (.terminalOutput (errText "run error")) ∈
      (receive envDeployFail sessReady
        (some (.jobj [("event", .jstr "runCode"),
                      ("code", .jstr "print(1)")]))).2 :=
  ⟨(claim8_handler_errors_not_fatal envDeployFail sessReady
      (some (.jobj [("event", .jstr "runCode"), ("code", .jstr "print(1)")]))
      rfl rfl).1,
   ((claim8_handler_errors_not_fatal envDeployFail sessReady
      (some (.jobj [("event", .jstr "runCode"), ("code", .jstr "print(1)")]))
      rfl rfl).2.2.2 rfl (by decide)).1,
   ((claim8_handler_errors_not_fatal envDeployFail sessReady
      (some (.jobj [("event", .jstr "runCode"), ("code", .jstr "print(1)")]))
      rfl rfl).2.2.2 rfl (by decide)).2⟩

/-- C4: every malformed inbound frame — unparseable, unrecognized event
tag, or a required field missing or of the wrong `typeof` — leaves the
session state unchanged and produces exactly one effect, a log line: no
outbound frame, no crash, no state change. -/
theorem claim4_malformed_ignored (env : Env) (s : SessionState)
    (raw : Option JVal) (htd : s.tearingDown = false)
    (hm : malformed raw = true) :
    (receive env s raw).1 = s ∧ (receive env s raw).2.length = 1 ∧
    ∀ e ∈ (receive env s raw).2, isLogEffect e = true := by
  rcases raw with _ | v
  · simp [receive, htd, isLogEffect]
  · simp only [malformed] at hm
    unfold receive
    simp only [htd, Bool.false_eq_true, if_false]
    by_cases h1 : eventTag v = some "terminalInput"
    · rw [if_pos h1] at hm
      rw [if_pos h1, if_pos (of_decide_eq_true hm)]
      simp [isLogEffect]
    · rw [if_neg h1] at hm
      rw [if_neg h1]
      by_cases h2 : eventTag v = some "runCode"
      · rw [if_pos h2] at hm
        rw [if_pos h2, if_pos (of_decide_eq_true hm)]
        simp [isLogEffect]
      · rw [if_neg h2] at hm
        rw [if_neg h2]
        by_cases h3 : eventTag v = some "lspInput"
        · rw [if_pos h3] at hm
          rw [if_pos h3, if_pos hm]
          simp [isLogEffect]
        · rw [if_neg h3]
          simp [isLogEffect]

/-- Witness for C4: the scenario frame `{event:"runCode"}` with the
required `code` field absent. -/
theorem claim4_witness :
    (receive envOK sessReady
        (some (.jobj [("event", .jstr "runCode")]))).1 = sessReady ∧
    (receive envOK sessReady
        (some (.jobj [("event", .jstr "runCode")]))).2.length = 1 ∧
    isLogEffect (Effect.logMalformed
        (some (.jobj [("event", .jstr "runCode")]))) = true :=
  ⟨(claim4_malformed_ignored envOK sessReady
      (some (.jobj [("event", .jstr "runCode")])) rfl (by decide)).1,
   (claim4_malformed_ignored envOK sessReady
      (some (.jobj [("event", .jstr "runCode")])) rfl (by decide)).2.1,
   (claim4_malformed_ignored envOK sessReady
      (some (.jobj [("event", .jstr "runCode")])) rfl (by decide)).2.2 _
     (by decide)⟩

/-- C3 (code evaluation at the failing input): the daemon block of
`setup` registers its `exit` listener once per iteration of the
stdout/stderr loop, so after a successful setup with a daemon configured
there are two registered exit listeners, and a daemon exit with signal
`SIGKILL` sends TWO `serviceFailed` frames (each carrying the signal
name), not one.  The session state is untouched by the exit — it remains
Ready and terminal input still works. -/
theorem claim3_daemon_exit_two_serviceFailed :
    (setup envOK (newSession "ud" cfgDaemon)).1.daemonExitHandlers = 2 ∧
    (setup envOK (newSession "ud" cfgDaemon)).1.msgHandlerInstalled = true ∧
    (daemonExit envOK (setup envOK (newSession "ud" cfgDaemon)).1
        (some "SIGKILL") 0).2 =
      [.wsSend (.serviceFailed "daemon" "Exited with status SIGKILL"),
       .wsSend (.serviceFailed "daemon" "Exited with status SIGKILL")] ∧
    (daemonExit envOK (setup envOK (newSession "ud" cfgDaemon)).1
        (some "SIGKILL") 0).1 =
      (setup envOK (newSession "ud" cfgDaemon)).1 ∧
    receive envOK
        (daemonExit envOK (setup envOK (newSession "ud" cfgDaemon)).1
          (some "SIGKILL") 0).1
        (some (.jobj [("event", .jstr "terminalInput"),
                      ("input", .jstr "ok")])) =
      ((setup envOK (newSession "ud" cfgDaemon)).1, [.ptyWrite "ok"]) := by
  decide

/-- C5 counterexample: the code argument `some ""` IS a supplied code
string, yet the resolved command line is the REPL, not the run command;
and with a configured suffix the deployed code does not get the suffix
appended. -/
theorem claim5_counterexample :
    (some "" : Option String) ≠ none ∧
    resolveCmdline cfgPlain (some "") ≠ cfgPlain.run ∧
    resolveCmdline cfgPlain (some "") = "python" ∧
    otruthy cfgSuffix.suffix = true ∧
    deployedCode cfgSuffix (some "") = "" := by
  decide

/-- C5 as amended: command-line resolution keys on TRUTHY (nonempty)
code: nonempty code selects the run command (compile-wrapped when a
compile command is configured); absent or empty code selects the REPL
when one is configured, else the no-op echo; an absent code argument
defaults the deployed text to `""` (when `createEmpty`) or the template;
and the configured suffix is appended exactly when the (defaulted)
deployed text is nonempty. -/
theorem claim5_command_resolution (c : LangConfig) (code? : Option String) :
    (otruthy code? = true →
      resolveCmdline c code? =
        if otruthy c.compile then
          "( " ++ c.compile.getD "" ++ " ) && ( " ++ c.run ++ " )"
        else c.run) ∧
    (otruthy code? = false → otruthy c.repl = true →
      resolveCmdline c code? = c.repl.getD "") ∧
    (otruthy code? = false → otruthy c.repl = false →
      resolveCmdline c code? =
        "echo \x27" ++ c.name ++
          " has no REPL, press Run to see it in action\x27") ∧
    (code? = none →
      deployedBase c code? = if c.createEmpty then "" else c.template) ∧
    (∀ str, code? = some str → deployedBase c code? = str) ∧
    ((deployedBase c code?).isEmpty = false → otruthy c.suffix = true →
      deployedCode c code? = deployedBase c code? ++ c.suffix.getD "") ∧
    ((deployedBase c code?).isEmpty = true ∨ otruthy c.suffix = false →
      deployedCode c code? = deployedBase c code?) := by
  refine ⟨?_, ?_, ?_, ?_, ?_, ?_, ?_⟩
  · intro h
    unfold resolveCmdline
    rw [if_pos h]
  · intro h hr
    unfold resolveCmdline
    rw [if_neg (by simp [h]), if_pos hr]
  · intro h hr
    unfold resolveCmdline
    rw [if_neg (by simp [h]), if_neg (by simp [hr])]
  · intro h
    subst h
    rfl
  · intro str h
    subst h
    rfl
  · intro h hs
    unfold deployedCode
    rw [if_pos (by simp [h, hs])]
  · intro h
    unfold deployedCode
    rcases h with h | h <;> rw [if_neg (by simp [h])]

/-- Witness for C5's resolution rules at concrete descriptors. -/
theorem claim5_witness :
    resolveCmdline cfgPlain (some "print(1)") = "python main.py" ∧
    resolveCmdline cfgPlain none = "python" ∧
    deployedCode cfgSuffix (some "x") = "x;;" :=
  ⟨((claim5_command_resolution cfgPlain (some "print(1)")).1
      (by decide)).trans (by decide),
   ((claim5_command_resolution cfgPlain none).2.1
      (by decide) (by decide)).trans (by decide),
   ((claim5_command_resolution cfgSuffix (some "x")).2.2.2.2.2.1
      (by decide) (by decide)).trans (by decide)⟩

/-- C6 counterexample: when the initial code deployment (the privileged
write of the code file) fails during setup, the failure is caught inside
`runCode`, reported as a diagnostic — and setup then CONTINUES: the
session reaches Ready (message handler installed), no teardown runs, and
the leased identity is not released. -/
theorem claim6_counterexample :
    Effect.log "Error while running user code" ∈
      (setup envDeployFail (newSession "u" cfgPlain)).2 ∧
    Effect.wsSend (.terminalOutput (errText "run error")) ∈
      (setup envDeployFail (newSession "u" cfgPlain)).2 ∧
    (setup envDeployFail (newSession "u" cfgPlain)).1.msgHandlerInstalled =
      true ∧
    (setup envDeployFail (newSession "u" cfgPlain)).1.tearingDown = false ∧
    countReturnUID (setup envDeployFail (newSession "u" cfgPlain)).2 = 0 := by
  decide

/-- C6 as amended: a failure of the identity lease or of the privileged
setup command makes the session route to teardown without ever reaching
Ready, with the failure reported as a diagnostic; the leased identity is
released exactly once when it was leased, and zero times when the lease
itself failed.  (An initial-deploy failure, by contrast, is swallowed by
Run-Code's own catch — see the counterexample.) -/
theorem claim6_setup_failure_routes_to_teardown (env : Env) (u : String)
    (c : LangConfig) (hws : env.wsSendOk = true)
    (hok : env.teardownRunOk = true)
    (hfail : env.leaseOk = false ∨ env.privSetupOk = false) :
    (setup env (newSession u c)).1.msgHandlerInstalled = false ∧
    (setup env (newSession u c)).1.tearingDown = true ∧
    (env.leaseOk = true →
      countReturnUID (setup env (newSession u c)).2 = 1) ∧
    (env.leaseOk = false →
      countReturnUID (setup env (newSession u c)).2 = 0) ∧
    Effect.wsSend (.terminalOutput (errText "setup error")) ∈
      (setup env (newSession u c)).2 := by
  cases hL : env.leaseOk with
  | false =>
    simp [setup, setupCatch, sendError, send, teardown, newSession,
      countReturnUID, hL, hws, hok]
  | true =>
    have hp : env.privSetupOk = false := by
      rcases hfail with h | h
      · rw [hL] at h
        exact absurd h (by simp)
      · exact h
    simp [setup, setupCatch, sendError, send, teardown, newSession,
      countReturnUID, hL, hp, hws, hok]

/-- Witness for C6 (amended) at a concrete failing privileged setup. -/
theorem claim6_witness :
    (setup envPrivFail (newSession "u" cfgPlain)).1.msgHandlerInstalled =
      false ∧
    (setup envPrivFail (newSession "u" cfgPlain)).1.tearingDown = true ∧
    countReturnUID (setup envPrivFail (newSession "u" cfgPlain)).2 = 1 ∧
    Effect.wsSend (.terminalOutput (errText "setup error")) ∈
      (setup envPrivFail (newSession "u" cfgPlain)).2 :=
  ⟨(claim6_setup_failure_routes_to_teardown envPrivFail "u" cfgPlain rfl rfl
      (Or.inr rfl)).1,
   (claim6_setup_failure_routes_to_teardown envPrivFail "u" cfgPlain rfl rfl
      (Or.inr rfl)).2.1,
   (claim6_setup_failure_routes_to_teardown envPrivFail "u" cfgPlain rfl rfl
      (Or.inr rfl)).2.2.1 rfl,
   (claim6_setup_failure_routes_to_teardown envPrivFail "u" cfgPlain rfl rfl
      (Or.inr rfl)).2.2.2.2⟩

end Riju
